import Mathlib

/-!
# Proof-of-work difficulty engine of PinkDog — shallow embedding

This file embeds the consensus-critical proof-of-work code of the repository
(`src/pow.cpp` together with the per-network parameters of
`src/chainparams.cpp`) as executable Lean definitions, and proves the spec's
claims about them.

Conventions of the embedding:
* 256-bit targets (`arith_uint256`) are `Nat` with explicit `% 2^256` where
  fixed-width storage matters; hashes are `Nat` as well.
* `int64_t` quantities (timestamps, timespans, heights) are `Int`, with C++
  truncating division and remainder rendered as `Int.tdiv` / `Int.tmod`.
* The chain index is an inductive nonempty list of block records, so that a
  block either is parentless (`pprev` null in C++) or carries its parent.
* Functions whose body is not under `src/` (the compact codec of
  `arith_uint256`, ancestor lookup, median time past, the adjustment-interval
  accessor) are modelled from the specification; each such definition carries
  a doc comment beginning `Modelled from the spec:`.
-/

/-- Consensus parameters: the subset of `Consensus::Params` read by
`src/pow.cpp`, populated per network in `src/chainparams.cpp`. -/
structure ConsensusParams where
  powLimit : Nat
  nPowTargetTimespan : Int
  nPowTargetSpacing : Int
  fPowAllowMinDifficultyBlocks : Bool
  fPowNoRetargeting : Bool

/-- Modelled from the spec: `adjustmentInterval = targetTimespan / targetSpacing`
(the body of `Consensus::Params::DifficultyAdjustmentInterval`, which lives in
a header that is not under `src/`); C++ `int64_t` division truncates toward
zero. -/
def DifficultyAdjustmentInterval (params : ConsensusParams) : Int :=
  Int.tdiv params.nPowTargetTimespan params.nPowTargetSpacing

/-- The per-block record consumed by `pow.cpp`: height, raw header timestamp,
median time past, and the compact difficulty field `nBits`.
`nMedianTimePast` is modelled from the spec as a stored per-block value
(median of the most recent 11 timestamps, computed outside this core). -/
structure BlockData where
  nHeight : Int
  nTime : Int
  nMedianTimePast : Int
  nBits : Nat

/-- A connected chain index entry: either a parentless block (`pprev == NULL`
in C++) or a block together with its parent chain. -/
inductive CBlockIndex : Type where
  | parentless (d : BlockData) : CBlockIndex
  | cons (d : BlockData) (prev : CBlockIndex) : CBlockIndex

/-- The block's own record. -/
def CBlockIndex.data : CBlockIndex → BlockData
  | .parentless d => d
  | .cons d _ => d

/-- `nHeight` field. -/
def CBlockIndex.nHeight (b : CBlockIndex) : Int := b.data.nHeight

/-- `GetBlockTime()`: the raw header timestamp `nTime`. -/
def CBlockIndex.GetBlockTime (b : CBlockIndex) : Int := b.data.nTime

/-- Modelled from the spec: `medianTimePast` — the median of the most recent
11 ancestor timestamps, a derived read-only view supplied by the chain index
(`CBlockIndex::GetMedianTimePast` is not under `src/`). -/
def CBlockIndex.GetMedianTimePast (b : CBlockIndex) : Int := b.data.nMedianTimePast

/-- `nBits` field. -/
def CBlockIndex.nBits (b : CBlockIndex) : Nat := b.data.nBits

/-- `pprev` pointer: `none` models `NULL`. -/
def CBlockIndex.pprev : CBlockIndex → Option CBlockIndex
  | .parentless _ => none
  | .cons _ p => some p

/-- Modelled from the spec: `ChainView.ancestorAt(height)` — the unique
ancestor at the given height, or `none` when no ancestor on the chain has that
height (`CBlockIndex::GetAncestor` is not under `src/`). -/
def CBlockIndex.GetAncestor : CBlockIndex → Int → Option CBlockIndex
  | .parentless d, h => if d.nHeight = h then some (.parentless d) else none
  | .cons d p, h => if d.nHeight = h then some (.cons d p) else p.GetAncestor h

/-- Modelled from the spec: the compact decoder
`arith_uint256::SetCompact(nCompact, &fNegative, &fOverflow)` (not under
`src/`). Layout per the spec: one exponent byte `E` and a 3-byte mantissa
whose top bit is the sign flag, so the usable mantissa is the low 23 bits;
`value = M · 256^(E−3)` for `E ≥ 3`, else `M` shifted right by `8·(3−E)`
bits, stored into a fixed-width 256-bit word. The overflow boundary follows
the reference network bit-for-bit (flagged exactly when a nonzero mantissa
scaled by `256^(E−3)` would not fit in 256 bits), as the spec requires.
Returns `(value, fNegative, fOverflow)`. -/
def SetCompact (nCompact : Nat) : Nat × Bool × Bool :=
  let nSize := nCompact / 2 ^ 24
  let nWord := nCompact % 2 ^ 23
  let value :=
    if nSize ≤ 3 then nWord / 256 ^ (3 - nSize)
    else nWord * 256 ^ (nSize - 3) % 2 ^ 256
  let fNegative := decide (nWord ≠ 0 ∧ nCompact / 2 ^ 23 % 2 = 1)
  let fOverflow := decide (nWord ≠ 0 ∧
    (nSize > 34 ∨ (nWord > 0xff ∧ nSize > 33) ∨ (nWord > 0xffff ∧ nSize > 32)))
  (value, fNegative, fOverflow)

/-- Fuel-driven byte length: number of base-256 digits of `x`, correct for
every `x < 256^fuel`. -/
def byteLenAux : Nat → Nat → Nat
  | 0, _ => 0
  | fuel + 1, x => if x = 0 then 0 else byteLenAux fuel (x / 256) + 1

/-- Byte length of a 256-bit value (64 bytes of fuel covers every value the
engine stores). -/
def byteLen (x : Nat) : Nat := byteLenAux 64 x

/-- Modelled from the spec: the compact encoder `arith_uint256::GetCompact`
(not under `src/`): minimal-exponent canonical form — take the byte length
`E`, shift the value so the top three bytes remain, and if the mantissa's
sign bit would be set, shift one more byte and bump the exponent so the sign
bit stays clear. -/
def GetCompact (x : Nat) : Nat :=
  let nSize := byteLen x
  let c := if nSize ≤ 3 then x * 256 ^ (3 - nSize) else x / 256 ^ (nSize - 3)
  if c ≥ 2 ^ 23 then c / 256 + (nSize + 1) * 2 ^ 24 else c + nSize * 2 ^ 24

/-- `CheckProofOfWork(hash, nBits, params)` from `src/pow.cpp` lines 101–118:
decode the claimed target, reject negative/zero/overflow targets and targets
above `powLimit`, then compare the hash against the target. -/
def CheckProofOfWork (hash : Nat) (nBits : Nat) (params : ConsensusParams) : Bool :=
  let r := SetCompact nBits
  let bnTarget := r.1
  let fNegative := r.2.1
  let fOverflow := r.2.2
  if fNegative || decide (bnTarget = 0) || fOverflow || decide (bnTarget > params.powLimit) then
    false
  else if decide (hash > bnTarget) then false
  else true

/-- The damping step of `CalculateNextWorkRequired` (line 69):
`nActualTimespan = nPowTargetTimespan + (nActualTimespan − nPowTargetTimespan)/4`
with C++ truncating division. -/
def dampenTimespan (timespan actual : Int) : Int :=
  timespan + Int.tdiv (actual - timespan) 4

/-- `nMinActualTimespan = nPowTargetTimespan * (100 − nMaxAdjustUp) / 100`
with `nMaxAdjustUp = 8` (lines 64–65). -/
def minTimespan (timespan : Int) : Int := Int.tdiv (timespan * (100 - 8)) 100

/-- `nMaxActualTimespan = nPowTargetTimespan * (100 + nMaxAdjustDown) / 100`
with `nMaxAdjustDown = 16` (lines 63, 66). -/
def maxTimespan (timespan : Int) : Int := Int.tdiv (timespan * (100 + 16)) 100

/-- The two clamping conditionals of lines 73–76, applied in source order. -/
def clampTimespan (timespan a : Int) : Int :=
  let a1 := if a < minTimespan timespan then minTimespan timespan else a
  if a1 > maxTimespan timespan then maxTimespan timespan else a1

/-- Modelled from the spec: the retarget arithmetic
`bnNew *= nActualTimespan; bnNew /= params.nPowTargetTimespan`
(`arith_uint256` operators, not under `src/`), which per the spec performs
the multiplication before the division over an intermediate wide enough that
the product is not truncated to 256 bits. -/
def retargetQuotient (t actual timespan : Nat) : Nat := t * actual / timespan

/-- The bootstrap-phase test of line 50: `pindexLast->nHeight <
params.DifficultyAdjustmentInterval()`. -/
def bootstrapPhase (pindexLast : CBlockIndex) (params : ConsensusParams) : Bool :=
  decide (pindexLast.nHeight < DifficultyAdjustmentInterval params)

/-- The retarget branch of `CalculateNextWorkRequired` (lines 56–98): locate
the first block of the averaging window, dampen and clamp the measured
timespan, rescale the decoded target and clamp it to `powLimit`, and re-encode.
Returns `none` when the required ancestor is missing, modelling the C++
`assert(pindexFirst)` aborting. -/
def retargetStep (pindexLast : CBlockIndex) (params : ConsensusParams) : Option Nat :=
  let nHeightFirst := pindexLast.nHeight - (DifficultyAdjustmentInterval params - 1)
  match pindexLast.GetAncestor nHeightFirst with
  | none => none
  | some pindexFirst =>
    let nActualTimespan0 := pindexLast.GetMedianTimePast - pindexFirst.GetMedianTimePast
    let nActualTimespan :=
      clampTimespan params.nPowTargetTimespan
        (dampenTimespan params.nPowTargetTimespan nActualTimespan0)
    let bnNew :=
      retargetQuotient (SetCompact pindexLast.nBits).1 nActualTimespan.toNat
        params.nPowTargetTimespan.toNat
    let bnNew := if bnNew > params.powLimit then params.powLimit else bnNew
    some (GetCompact bnNew)

/-- `CalculateNextWorkRequired(pindexLast, nFirstBlockTime, params)` from
`src/pow.cpp` lines 42–99. The `nFirstBlockTime` argument is kept with the
source's signature. -/
def CalculateNextWorkRequired (pindexLast : CBlockIndex) (nFirstBlockTime : Int)
    (params : ConsensusParams) : Option Nat :=
  if params.fPowNoRetargeting then some pindexLast.nBits
  else if bootstrapPhase pindexLast params then some (GetCompact params.powLimit)
  else retargetStep pindexLast params

/-- The walk-back loop of `GetNextWorkRequired` lines 32–35: step to the
parent while the block has a parent, its height is not a multiple of the
adjustment interval, and its `nBits` equal the compact proof-of-work limit;
return the `nBits` where the walk stops. -/
def minDiffWalk (interval : Int) (limitBits : Nat) : CBlockIndex → Nat
  | .parentless d => d.nBits
  | .cons d p =>
    if Int.tmod d.nHeight interval ≠ 0 ∧ d.nBits = limitBits then
      minDiffWalk interval limitBits p
    else d.nBits

/-- `GetNextWorkRequired(pindexLast, pblock, params)` from `src/pow.cpp`
lines 14–40; `pindexLast = none` models the genesis `NULL` parent and
`blockTime` is `pblock->GetBlockTime()`. -/
def GetNextWorkRequired (pindexLast : Option CBlockIndex) (blockTime : Int)
    (params : ConsensusParams) : Option Nat :=
  let nProofOfWorkLimit := GetCompact params.powLimit
  match pindexLast with
  | none => some nProofOfWorkLimit
  | some last =>
    if params.fPowAllowMinDifficultyBlocks then
      if blockTime > last.GetBlockTime + params.nPowTargetSpacing * 2 then
        some nProofOfWorkLimit
      else
        some (minDiffWalk (DifficultyAdjustmentInterval params) nProofOfWorkLimit last)
    else CalculateNextWorkRequired last 0 params

/-- Main-network consensus parameters (`CMainParams`, `src/chainparams.cpp`
lines 79–83): `powLimit = 2^224 − 1`, thirty-minute timespan, thirty-second
spacing, no minimum-difficulty exception, retargeting on. -/
def mainParams : ConsensusParams where
  powLimit := 0xffffffffffffffffffffffffffffffffffffffffffffffffffffffff
  nPowTargetTimespan := 30 * 60
  nPowTargetSpacing := 30
  fPowAllowMinDifficultyBlocks := false
  fPowNoRetargeting := false

/-- Testnet consensus parameters (`CTestNetParams`, `src/chainparams.cpp`
lines 162–166). -/
def testNetParams : ConsensusParams where
  powLimit := 0xffffffffffffffffffffffffffffffffffffffffffffffffffffffff
  nPowTargetTimespan := 30 * 60
  nPowTargetSpacing := 30
  fPowAllowMinDifficultyBlocks := true
  fPowNoRetargeting := false

/-- Regtest consensus parameters (`CRegTestParams`, `src/chainparams.cpp`
lines 243–247): `powLimit = 2^255 − 1`, retargeting frozen. -/
def regTestParams : ConsensusParams where
  powLimit := 0x7fffffffffffffffffffffffffffffffffffffffffffffffffffffffffffffff
  nPowTargetTimespan := 30 * 60
  nPowTargetSpacing := 30
  fPowAllowMinDifficultyBlocks := true
  fPowNoRetargeting := true

/-- A straight chain of the given length whose blocks all carry the same
`nBits` (heights `0..n`, all timestamps zero); used for concrete evaluations. -/
def chainOfBits (bits : Nat) : Nat → CBlockIndex
  | 0 => .parentless ⟨0, 0, 0, bits⟩
  | n + 1 => .cons ⟨(n : Int) + 1, 0, 0, bits⟩ (chainOfBits bits n)

/-- C9: for every parameter set, `GetNextWorkRequired` invoked with no current
block (the block under evaluation is genesis) returns the compact encoding of
`powLimit`, without consulting the retarget engine or any ancestor. -/
theorem getNextWorkRequired_genesis (blockTime : Int) (params : ConsensusParams) :
    GetNextWorkRequired none blockTime params = some (GetCompact params.powLimit) :=
  rfl

/-- C10: the result of `CalculateNextWorkRequired` is independent of its
`nFirstBlockTime` argument — any two calls differing only in that argument
return the same compact target, for every chain state and parameter set. -/
theorem calculateNextWorkRequired_ignores_nFirstBlockTime
    (pindexLast : CBlockIndex) (t1 t2 : Int) (params : ConsensusParams) :
    CalculateNextWorkRequired pindexLast t1 params
      = CalculateNextWorkRequired pindexLast t2 params :=
  rfl

/-- C6: with `fPowNoRetargeting = true`, `CalculateNextWorkRequired` returns
the current block's `nBits` unchanged, regardless of height, timestamps, and
ancestors. -/
theorem calculateNextWorkRequired_noRetargeting
    (pindexLast : CBlockIndex) (nFirstBlockTime : Int) (params : ConsensusParams)
    (h : params.fPowNoRetargeting = true) :
    CalculateNextWorkRequired pindexLast nFirstBlockTime params = some pindexLast.nBits := by
  simp [CalculateNextWorkRequired, h]

/-- Witness for C6 at the regtest parameters (whose `fPowNoRetargeting` is
`true` in `src/chainparams.cpp`) and a concrete block. -/
theorem calculateNextWorkRequired_noRetargeting_witness :
    regTestParams.fPowNoRetargeting = true ∧
    CalculateNextWorkRequired (.parentless ⟨5, 1000, 900, 0x207fffff⟩) 0 regTestParams
      = some 0x207fffff :=
  ⟨rfl, calculateNextWorkRequired_noRetargeting _ 0 regTestParams rfl⟩

/-- C7: with `fPowAllowMinDifficultyBlocks = true` and a non-genesis parent,
a candidate timestamp strictly more than `2 * nPowTargetSpacing` past the
parent's timestamp yields the compact encoding of `powLimit`. -/
theorem getNextWorkRequired_minDifficulty_gap
    (last : CBlockIndex) (blockTime : Int) (params : ConsensusParams)
    (hmin : params.fPowAllowMinDifficultyBlocks = true)
    (hgap : blockTime > last.GetBlockTime + params.nPowTargetSpacing * 2) :
    GetNextWorkRequired (some last) blockTime params = some (GetCompact params.powLimit) := by
  simp [GetNextWorkRequired, hmin, hgap]

/-- Witness for C7 at the testnet parameters: parent timestamp `1000`,
candidate timestamp `1061 > 1000 + 2·30`. -/
theorem getNextWorkRequired_minDifficulty_gap_witness :
    testNetParams.fPowAllowMinDifficultyBlocks = true ∧
    (1061 : Int) > (CBlockIndex.parentless ⟨7, 1000, 950, 0x1c123456⟩).GetBlockTime
      + testNetParams.nPowTargetSpacing * 2 ∧
    GetNextWorkRequired (some (.parentless ⟨7, 1000, 950, 0x1c123456⟩)) 1061 testNetParams
      = some (GetCompact testNetParams.powLimit) :=
  ⟨rfl, by decide,
    getNextWorkRequired_minDifficulty_gap _ 1061 testNetParams rfl (by decide)⟩

/-- C1 counterexample: at `nBits = 0` the decoder yields target `0` with
neither flag set, so with `hash = 0` we have `hash ≤ target ≤ powLimit`, yet
`CheckProofOfWork` rejects — refuting the claim's clause that acceptance
holds exactly when `hash ≤ target ≤ powLimit`. -/
theorem checkProofOfWork_not_iff_le_le :
    CheckProofOfWork 0 0 mainParams = false ∧
    (0 : Nat) ≤ (SetCompact 0).1 ∧ (SetCompact 0).1 ≤ mainParams.powLimit ∧
    (SetCompact 0).2.1 = false ∧ (SetCompact 0).2.2 = false := by
  decide

/-- C1 amended: `CheckProofOfWork(hash, nBits, params)` accepts if and only if
the decoded compact value is non-negative, non-overflowing, nonzero, at most
`powLimit`, and at least `hash`; in particular it returns `false` whenever the
negative flag, the overflow flag, a zero target, or a target above `powLimit`
arises. -/
theorem checkProofOfWork_iff (hash nBits : Nat) (params : ConsensusParams) :
    CheckProofOfWork hash nBits params = true ↔
      ((SetCompact nBits).2.1 = false ∧ (SetCompact nBits).2.2 = false ∧
        (SetCompact nBits).1 ≠ 0 ∧ (SetCompact nBits).1 ≤ params.powLimit ∧
        hash ≤ (SetCompact nBits).1) := by
  rcases hr : SetCompact nBits with ⟨v, fneg, fovf⟩
  simp only [CheckProofOfWork, hr]
  cases fneg <;> cases fovf <;>
    simp <;> · constructor <;> · intros; omega

/-- C3 counterexample: at height `59 = adjustmentInterval − 1` on mainnet
(interval `60`), `height + 1 ≥ adjustmentInterval` holds, yet the code takes
the bootstrap branch (`nHeight < interval`) and returns the compact encoding
of `powLimit` instead of the retarget branch's result — refuting the claim
that the full retarget computation runs at this height. -/
theorem calculateNextWorkRequired_bootstrap_at_59 :
    DifficultyAdjustmentInterval mainParams ≤ (chainOfBits 0x1d00ffff 59).nHeight + 1 ∧
    mainParams.fPowNoRetargeting = false ∧
    bootstrapPhase (chainOfBits 0x1d00ffff 59) mainParams = true ∧
    CalculateNextWorkRequired (chainOfBits 0x1d00ffff 59) 0 mainParams
      = some (GetCompact mainParams.powLimit) ∧
    CalculateNextWorkRequired (chainOfBits 0x1d00ffff 59) 0 mainParams
      ≠ retargetStep (chainOfBits 0x1d00ffff 59) mainParams := by
  decide

/-- C3 amended: with `fPowNoRetargeting = false`, the bootstrap branch is
taken exactly when `nHeight < adjustmentInterval` (equivalently
`nHeight + 1 ≤ adjustmentInterval`), returning the compact encoding of
`powLimit`; the full retarget computation runs exactly when
`nHeight ≥ adjustmentInterval` — in particular the bootstrap branch is still
taken at `nHeight = adjustmentInterval − 1`. -/
theorem calculateNextWorkRequired_bootstrap_boundary
    (pindexLast : CBlockIndex) (nFirstBlockTime : Int) (params : ConsensusParams)
    (h : params.fPowNoRetargeting = false) :
    (pindexLast.nHeight < DifficultyAdjustmentInterval params →
      CalculateNextWorkRequired pindexLast nFirstBlockTime params
        = some (GetCompact params.powLimit)) ∧
    (DifficultyAdjustmentInterval params ≤ pindexLast.nHeight →
      CalculateNextWorkRequired pindexLast nFirstBlockTime params
        = retargetStep pindexLast params) := by
  constructor
  · intro hlt
    simp [CalculateNextWorkRequired, h, bootstrapPhase, hlt]
  · intro hge
    simp [CalculateNextWorkRequired, h, bootstrapPhase, not_lt.mpr hge]

/-- Witness for C3's amended statement at a concrete height-0 mainnet block. -/
theorem calculateNextWorkRequired_bootstrap_boundary_witness :
    mainParams.fPowNoRetargeting = false ∧
    (((CBlockIndex.parentless ⟨0, 0, 0, 0x1d00ffff⟩).nHeight
        < DifficultyAdjustmentInterval mainParams →
      CalculateNextWorkRequired (.parentless ⟨0, 0, 0, 0x1d00ffff⟩) 0 mainParams
        = some (GetCompact mainParams.powLimit)) ∧
    (DifficultyAdjustmentInterval mainParams
        ≤ (CBlockIndex.parentless ⟨0, 0, 0, 0x1d00ffff⟩).nHeight →
      CalculateNextWorkRequired (.parentless ⟨0, 0, 0, 0x1d00ffff⟩) 0 mainParams
        = retargetStep (.parentless ⟨0, 0, 0, 0x1d00ffff⟩) mainParams)) :=
  ⟨rfl, calculateNextWorkRequired_bootstrap_boundary _ 0 mainParams rfl⟩

/-- The two clamp bounds are ordered whenever the target timespan is
non-negative. -/
theorem minTimespan_le_maxTimespan (timespan : Int) (h : 0 ≤ timespan) :
    minTimespan timespan ≤ maxTimespan timespan := by
  obtain ⟨n, rfl⟩ := Int.eq_ofNat_of_zero_le h
  have h1 : ((n : Int) * (100 - 8)) = ((n * 92 : Nat) : Int) := by push_cast; ring
  have h2 : ((n : Int) * (100 + 16)) = ((n * 116 : Nat) : Int) := by push_cast; ring
  show Int.tdiv ((n : Int) * (100 - 8)) 100 ≤ Int.tdiv ((n : Int) * (100 + 16)) 100
  rw [h1, h2]
  show ((n * 92 / 100 : Nat) : Int) ≤ ((n * 116 / 100 : Nat) : Int)
  exact_mod_cast Nat.div_le_div_right (Nat.mul_le_mul_left n (by norm_num))

/-- C4: for every raw measured timespan, the value obtained by the damping
step followed by the two clamping conditionals lies in the closed interval
`[timespan·92/100, timespan·116/100]` (truncating division), the code's
`100 − 8` and `100 + 16` bounds agreeing with the claim's `92` and `116`. -/
theorem dampenClamp_bounds (timespan raw : Int) (h : 0 ≤ timespan) :
    minTimespan timespan ≤ clampTimespan timespan (dampenTimespan timespan raw) ∧
    clampTimespan timespan (dampenTimespan timespan raw) ≤ maxTimespan timespan ∧
    minTimespan timespan = Int.tdiv (timespan * 92) 100 ∧
    maxTimespan timespan = Int.tdiv (timespan * 116) 100 := by
  have key := minTimespan_le_maxTimespan timespan h
  refine ⟨?_, ?_, by norm_num [minTimespan], by norm_num [maxTimespan]⟩ <;>
  · simp only [clampTimespan]
    split_ifs <;> omega

/-- Witness for C4 at `timespan = 1800` and a raw timespan of `10000` seconds:
the damped and clamped value stays within `[1656, 2088]`. -/
theorem dampenClamp_bounds_witness :
    (0 : Int) ≤ 1800 ∧
    (minTimespan 1800 ≤ clampTimespan 1800 (dampenTimespan 1800 10000) ∧
     clampTimespan 1800 (dampenTimespan 1800 10000) ≤ maxTimespan 1800 ∧
     minTimespan 1800 = Int.tdiv (1800 * 92) 100 ∧
     maxTimespan 1800 = Int.tdiv (1800 * 116) 100) :=
  ⟨by decide, dampenClamp_bounds 1800 10000 (by decide)⟩

/-- C8: with the minimum-difficulty exception enabled and the candidate
timestamp within the two-spacing gap, `GetNextWorkRequired` returns the
result of the backward walk; the walk steps to the parent exactly while the
block has a parent, its height is not a multiple of the adjustment interval,
and its `nBits` equal the compact `powLimit`, returning the `nBits` where it
stops — in particular a start block whose height is a multiple of the
interval yields its own `nBits` without moving past it. -/
theorem getNextWorkRequired_minDifficulty_walk
    (last : CBlockIndex) (blockTime : Int) (params : ConsensusParams)
    (hmin : params.fPowAllowMinDifficultyBlocks = true)
    (hgap : ¬ blockTime > last.GetBlockTime + params.nPowTargetSpacing * 2) :
    GetNextWorkRequired (some last) blockTime params
      = some (minDiffWalk (DifficultyAdjustmentInterval params)
          (GetCompact params.powLimit) last) ∧
    (∀ d : BlockData,
      minDiffWalk (DifficultyAdjustmentInterval params) (GetCompact params.powLimit)
        (.parentless d) = d.nBits) ∧
    (∀ (d : BlockData) (q : CBlockIndex),
      minDiffWalk (DifficultyAdjustmentInterval params) (GetCompact params.powLimit)
          (.cons d q)
        = if Int.tmod d.nHeight (DifficultyAdjustmentInterval params) ≠ 0 ∧
              d.nBits = GetCompact params.powLimit then
            minDiffWalk (DifficultyAdjustmentInterval params) (GetCompact params.powLimit) q
          else d.nBits) ∧
    (Int.tmod last.nHeight (DifficultyAdjustmentInterval params) = 0 →
      GetNextWorkRequired (some last) blockTime params = some last.nBits) := by
  have hdeleg : GetNextWorkRequired (some last) blockTime params
      = some (minDiffWalk (DifficultyAdjustmentInterval params)
          (GetCompact params.powLimit) last) := by
    simp [GetNextWorkRequired, hmin, hgap]
  refine ⟨hdeleg, fun d => rfl, fun d q => rfl, fun h0 => ?_⟩
  rw [hdeleg]
  cases last with
  | parentless d => rfl
  | cons d q =>
    have hd : Int.tmod d.nHeight (DifficultyAdjustmentInterval params) = 0 := h0
    simp [minDiffWalk, hd, CBlockIndex.nBits, CBlockIndex.data]

/-- Witness for C8 on the spec's walk-back scenario with testnet parameters
(interval 60): chain `A(58, 0x1c123456) ← B(59, limit) ← C(60, limit)`;
selecting from `C`, whose height is a multiple of 60, returns `C.nBits`
without moving past it. -/
theorem getNextWorkRequired_minDifficulty_walk_witness :
    testNetParams.fPowAllowMinDifficultyBlocks = true ∧
    ¬ (1000 : Int) >
      (CBlockIndex.cons ⟨60, 1000, 980, 0x1d00ffff⟩
        (.cons ⟨59, 970, 950, 0x1d00ffff⟩ (.parentless ⟨58, 940, 920, 0x1c123456⟩))).GetBlockTime
        + testNetParams.nPowTargetSpacing * 2 ∧
    Int.tmod (CBlockIndex.cons ⟨60, 1000, 980, 0x1d00ffff⟩
        (.cons ⟨59, 970, 950, 0x1d00ffff⟩ (.parentless ⟨58, 940, 920, 0x1c123456⟩))).nHeight
        (DifficultyAdjustmentInterval testNetParams) = 0 ∧
    GetNextWorkRequired
        (some (.cons ⟨60, 1000, 980, 0x1d00ffff⟩
          (.cons ⟨59, 970, 950, 0x1d00ffff⟩ (.parentless ⟨58, 940, 920, 0x1c123456⟩))))
        1000 testNetParams
      = some 0x1d00ffff :=
  ⟨rfl, by decide, by decide,
    (getNextWorkRequired_minDifficulty_walk _ 1000 testNetParams rfl (by decide)).2.2.2
      (by decide)⟩

/-- Arbitrary-precision reference for the retarget step, stated in the spec's
words: the exact truncating quotient of the full product
`target × actualTimespan` by `targetTimespan`, computed without any
fixed-width reduction. -/
def exactQuotientReference (t actual timespan : Nat) : Nat := t * actual / timespan

/-- C2: for every target at most `powLimit` and every damped-and-clamped
actual timespan, the retarget step's quotient is the exact arbitrary-precision
value of `target × actualTimespan ÷ targetTimespan`: it agrees with the
reference and satisfies the defining inequalities of exact truncating division
of the untruncated product. -/
theorem retargetQuotient_exact (params : ConsensusParams) (t : Nat) (raw : Int)
    (ht : t ≤ params.powLimit) (hT : 0 < params.nPowTargetTimespan) :
    retargetQuotient t
        (clampTimespan params.nPowTargetTimespan
          (dampenTimespan params.nPowTargetTimespan raw)).toNat
        params.nPowTargetTimespan.toNat
      = exactQuotientReference t
          (clampTimespan params.nPowTargetTimespan
            (dampenTimespan params.nPowTargetTimespan raw)).toNat
          params.nPowTargetTimespan.toNat ∧
    retargetQuotient t
        (clampTimespan params.nPowTargetTimespan
          (dampenTimespan params.nPowTargetTimespan raw)).toNat
        params.nPowTargetTimespan.toNat * params.nPowTargetTimespan.toNat
      ≤ t * (clampTimespan params.nPowTargetTimespan
          (dampenTimespan params.nPowTargetTimespan raw)).toNat ∧
    t * (clampTimespan params.nPowTargetTimespan
          (dampenTimespan params.nPowTargetTimespan raw)).toNat
      < retargetQuotient t
          (clampTimespan params.nPowTargetTimespan
            (dampenTimespan params.nPowTargetTimespan raw)).toNat
          params.nPowTargetTimespan.toNat * params.nPowTargetTimespan.toNat
        + params.nPowTargetTimespan.toNat := by
  have hTpos : 0 < params.nPowTargetTimespan.toNat := by omega
  refine ⟨rfl, Nat.div_mul_le_self _ _, ?_⟩
  set z := t * (clampTimespan params.nPowTargetTimespan
    (dampenTimespan params.nPowTargetTimespan raw)).toNat with hz
  set T := params.nPowTargetTimespan.toNat with hTn
  calc z = T * (z / T) + z % T := (Nat.div_add_mod z T).symm
    _ < T * (z / T) + T := Nat.add_lt_add_left (Nat.mod_lt z hTpos) _
    _ = z / T * T + T := by ring

/-- Witness for C2 at the mainnet parameters, target `0xffff · 256^26`
(the decoded genesis target) and a raw timespan of `1800`. -/
theorem retargetQuotient_exact_witness :
    (SetCompact 0x1d00ffff).1 ≤ mainParams.powLimit ∧
    (0 : Int) < mainParams.nPowTargetTimespan ∧
    retargetQuotient (SetCompact 0x1d00ffff).1
        (clampTimespan mainParams.nPowTargetTimespan
          (dampenTimespan mainParams.nPowTargetTimespan 1800)).toNat
        mainParams.nPowTargetTimespan.toNat
      = exactQuotientReference (SetCompact 0x1d00ffff).1
          (clampTimespan mainParams.nPowTargetTimespan
            (dampenTimespan mainParams.nPowTargetTimespan 1800)).toNat
          mainParams.nPowTargetTimespan.toNat :=
  ⟨by decide, by decide,
    (retargetQuotient_exact mainParams (SetCompact 0x1d00ffff).1 1800
      (by decide) (by decide)).1⟩

/-- C5: every network is configured with `targetTimespan = 1800` and
`targetSpacing = 30`, so `adjustmentInterval = 60` exactly; when the measured
actual timespan equals the target timespan, damping and clamping leave it
unchanged and the multiply-then-divide retarget step leaves every starting
target numerically unchanged. -/
theorem retarget_identity_case :
    mainParams.nPowTargetTimespan = 1800 ∧ mainParams.nPowTargetSpacing = 30 ∧
    testNetParams.nPowTargetTimespan = 1800 ∧ testNetParams.nPowTargetSpacing = 30 ∧
    regTestParams.nPowTargetTimespan = 1800 ∧ regTestParams.nPowTargetSpacing = 30 ∧
    DifficultyAdjustmentInterval mainParams = 60 ∧
    DifficultyAdjustmentInterval testNetParams = 60 ∧
    DifficultyAdjustmentInterval regTestParams = 60 ∧
    dampenTimespan 1800 1800 = 1800 ∧
    clampTimespan 1800 (dampenTimespan 1800 1800) = 1800 ∧
    ∀ t : Nat, retargetQuotient t ((1800 : Int)).toNat ((1800 : Int)).toNat = t := by
  refine ⟨rfl, rfl, rfl, rfl, rfl, rfl, by decide, by decide, by decide,
    by decide, by decide, fun t => ?_⟩
  show t * 1800 / 1800 = t
  exact Nat.mul_div_cancel t (by norm_num)

